import Mathlib

/-!
# HTML-to-image: argument builder and request handler

A shallow embedding of `main.go`.  Go strings are Lean `String`s (the strings of
a request come out of the JSON decoder, so they are valid UTF-8, and `bytesOf`
gives their bytes), Go `int` fields are `Int` (no arithmetic is performed on
them, so the width plays no role), a Go `[]string` is a `List String` built by
successive appends, and a `(value, error)` pair is an `Except String _`
carrying the error text.  The handler is a function of the body decoder, of the
external tool and of the response it is handed; it returns the response it
wrote together with the commands it ran and the lines it logged.
-/

set_option autoImplicit false

namespace HtmlToImage

/-! ## Data model (`main.go` lines 21-48) -/

structure Cookie where
  Key : String
  Value : String
  deriving DecidableEq, Repr

structure Crop where
  X : Int
  Y : Int
  W : Int
  H : Int
  deriving DecidableEq, Repr

structure Config where
  Format : String
  Width : Int
  Height : Int
  DisableSmartWidth : Bool
  Encoding : String
  Crop : Crop
  Quality : Int
  Transparent : Bool
  Cookies : List Cookie
  deriving DecidableEq, Repr

structure GenerateImage where
  Html : String
  Config : Config
  deriving DecidableEq, Repr

/-- The zero value of `Crop`. -/
def Crop.zero : Crop := ⟨0, 0, 0, 0⟩

/-- The zero value of `Config` (what a freshly allocated Go struct holds). -/
def Config.zero : Config :=
  { Format := "", Width := 0, Height := 0, DisableSmartWidth := false, Encoding := "",
    Crop := Crop.zero, Quality := 0, Transparent := false, Cookies := [] }

deriving instance DecidableEq for Except

/-! ## Library functions used by the builder -/

/-- Modelled from the spec: `fmt.Sprintf("%d", i)` of the Go standard library, which is
not among the sources.  It is the signed base-10 rendering: the decimal digits of the
magnitude, preceded by `-` for a negative value. -/
def sprintfD (i : Int) : String :=
  if i < 0 then "-" ++ Nat.repr i.natAbs else Nat.repr i.natAbs

/-- The bytes of a string (its UTF-8 encoding), as Go indexes them with `s[i]`. -/
def bytesOf (s : String) : List UInt8 :=
  s.data.flatMap String.utf8EncodeChar

/-- The table `upperhex` of `net/url`. -/
def upperhex : List Char := "0123456789ABCDEF".data

/-- Modelled from the spec: `shouldEscape` of Go's `net/url` in query-component mode,
which is not among the sources.  ASCII letters, digits and `-`, `_`, `.`, `~` are kept;
every other byte is escaped. -/
def shouldEscape (c : UInt8) : Bool :=
  if ('a'.toNat ≤ c.toNat ∧ c.toNat ≤ 'z'.toNat) ∨ ('A'.toNat ≤ c.toNat ∧ c.toNat ≤ 'Z'.toNat)
      ∨ ('0'.toNat ≤ c.toNat ∧ c.toNat ≤ '9'.toNat) then false
  else if c.toNat = '-'.toNat ∨ c.toNat = '_'.toNat ∨ c.toNat = '.'.toNat
      ∨ c.toNat = '~'.toNat then false
  else true

/-- What one byte of the input contributes to the escaped output. -/
def escapeByte (c : UInt8) : List Char :=
  if c.toNat = ' '.toNat then ['+']
  else if shouldEscape c then
    ['%', upperhex.getD (c.toNat / 16) '?', upperhex.getD (c.toNat % 16) '?']
  else [Char.ofNat c.toNat]

/-- Modelled from the spec: `url.QueryEscape` of Go's `net/url`, which is not among the
sources.  Standard query-parameter escaping, byte by byte: a space becomes `+`, an
unreserved byte is kept, any other byte becomes `%` and its two upper-case hex digits. -/
def QueryEscape (s : String) : String :=
  String.mk ((bytesOf s).flatMap escapeByte)

/-! ## The argument builder (`main.go` lines 50-121) -/

/-- The keys of the map `ValidFormats`. -/
def ValidFormats : List String := ["png", "jpg", "jpeg", "svg", "bmp"]

/-- Map lookup `_, ok := ValidFormats[format]`. -/
def isValidFormat (format : String) : Bool :=
  ValidFormats.contains format

/-- The loop body of the cookie loop: one `append` of two tokens. -/
def appendCookie (arguments : List String) (cookie : Cookie) : List String :=
  arguments ++ ["--cookie", cookie.Key ++ "=" ++ QueryEscape cookie.Value]

/-- The function `generateArguments`, statement by statement: `arguments` starts as the
nil slice and every `if` appends its tokens to it. -/
def generateArguments (config : Config) : Except String (List String) :=
  let arguments : List String := []
  if !isValidFormat config.Format then
    .error ("invalid format: " ++ config.Format)
  else
    let arguments :=
      if config.Format != "" then arguments ++ ["-f", config.Format] else arguments
    let arguments :=
      if config.Width != 0 then arguments ++ ["--width", sprintfD config.Width] else arguments
    let arguments :=
      if config.Height != 0 then arguments ++ ["--height", sprintfD config.Height]
      else arguments
    let arguments :=
      if config.DisableSmartWidth then arguments ++ ["--disable-smart-width"] else arguments
    let arguments :=
      if config.Encoding != "" then arguments ++ ["--encoding", config.Encoding]
      else arguments
    let arguments :=
      if config.Quality != 0 then arguments ++ ["--quality", sprintfD config.Quality]
      else arguments
    let arguments :=
      if config.Transparent then arguments ++ ["--transparent"] else arguments
    let arguments :=
      if config.Crop.X != 0 then arguments ++ ["--crop-x", sprintfD config.Crop.X]
      else arguments
    let arguments :=
      if config.Crop.Y != 0 then arguments ++ ["--crop-y", sprintfD config.Crop.Y]
      else arguments
    let arguments :=
      if config.Crop.H != 0 then arguments ++ ["--crop-h", sprintfD config.Crop.H]
      else arguments
    let arguments :=
      if config.Crop.W != 0 then arguments ++ ["--crop-w", sprintfD config.Crop.W]
      else arguments
    let arguments :=
      if config.Cookies.length > 0 then config.Cookies.foldl appendCookie arguments
      else arguments
    .ok arguments

/-- The argument list as the specification words it: the concatenation, in a fixed
order, of one segment per field, a segment being empty when its field is zero or empty.
It is compared with `generateArguments` below. -/
def specArguments (config : Config) : List String :=
  ["-f", config.Format]
    ++ (if config.Width ≠ 0 then ["--width", sprintfD config.Width] else [])
    ++ (if config.Height ≠ 0 then ["--height", sprintfD config.Height] else [])
    ++ (if config.DisableSmartWidth = true then ["--disable-smart-width"] else [])
    ++ (if config.Encoding ≠ "" then ["--encoding", config.Encoding] else [])
    ++ (if config.Quality ≠ 0 then ["--quality", sprintfD config.Quality] else [])
    ++ (if config.Transparent = true then ["--transparent"] else [])
    ++ (if config.Crop.X ≠ 0 then ["--crop-x", sprintfD config.Crop.X] else [])
    ++ (if config.Crop.Y ≠ 0 then ["--crop-y", sprintfD config.Crop.Y] else [])
    ++ (if config.Crop.H ≠ 0 then ["--crop-h", sprintfD config.Crop.H] else [])
    ++ (if config.Crop.W ≠ 0 then ["--crop-w", sprintfD config.Crop.W] else [])
    ++ config.Cookies.flatMap
        (fun cookie => ["--cookie", cookie.Key ++ "=" ++ QueryEscape cookie.Value])

/-! ## The request handler (`main.go` lines 123-149) -/

/-- What the handler has put in the response body: nothing yet, a string
(`SendString`) or raw bytes (`Send`). -/
inductive Body where
  | empty
  | text (s : String)
  | bytes (b : List UInt8)
  deriving DecidableEq, Repr

/-- The part of `fiber.Ctx` the handler writes: the response status, the response
headers and the response body. -/
structure Ctx where
  status : Nat
  headers : List (String × String)
  body : Body
  deriving DecidableEq, Repr

/-- A response nothing has been written to; its status is 200, the default of the
framework. -/
def Ctx.fresh : Ctx := { status := 200, headers := [], body := Body.empty }

/-- The call `c.Status(code)`. -/
def Ctx.Status (c : Ctx) (code : Nat) : Ctx := { c with status := code }

/-- The call `c.SendString(s)`. -/
def Ctx.SendString (c : Ctx) (s : String) : Ctx := { c with body := Body.text s }

/-- The call `c.Send(b)`. -/
def Ctx.Send (c : Ctx) (b : List UInt8) : Ctx := { c with body := Body.bytes b }

/-- The call `c.Set(key, val)`: the header is set, replacing an earlier value. -/
def Ctx.Set (c : Ctx) (key val : String) : Ctx :=
  { c with headers := (key, val) :: c.headers.filter (fun kv => kv.1 != key) }

/-- The value of a response header. -/
def Ctx.header (c : Ctx) (key : String) : Option String :=
  c.headers.lookup key

def StatusBadRequest : Nat := 400

def StatusInternalServerError : Nat := 500

/-- An `exec.Cmd` as the handler sets it up: program, arguments, standard input. -/
structure Cmd where
  Path : String
  Args : List String
  Stdin : String
  deriving DecidableEq, Repr

/-- The call `exec.Command(name, arg...)`; the standard input is not set yet. -/
def Command (name : String) (arg : List String) : Cmd :=
  { Path := name, Args := arg, Stdin := "" }

/-- What `cmd.Run()` leaves behind: the bytes captured in the buffer `out`, and the
error it returns, if any (the process could not be started, or exited non-zero). -/
structure RunResult where
  out : List UInt8
  err : Option String
  deriving DecidableEq, Repr

/-- What one call of the handler has done: the response it wrote, the commands it
ran, in order, and the lines it logged. -/
structure Handled where
  ctx : Ctx
  ran : List Cmd
  logged : List String
  deriving DecidableEq, Repr

/-- The function `handleGenerateImageRequest`.  The body decoder `c.BodyParser` and the
external tool behind `cmd.Run()` are parameters; `raw` is the request body. -/
def handleGenerateImageRequest (BodyParser : String → Except String GenerateImage)
    (Run : Cmd → RunResult) (raw : String) (c : Ctx) : Handled :=
  match BodyParser raw with
  | .error err => { ctx := (c.Status StatusBadRequest).SendString err, ran := [], logged := [] }
  | .ok req =>
    match generateArguments req.Config with
    | .error err =>
      { ctx := (c.Status StatusBadRequest).SendString err, ran := [], logged := [] }
    | .ok args =>
      let cmd := Command "wkhtmltoimage" (args ++ ["-", "-"])
      let cmd := { cmd with Stdin := req.Html }
      let res := Run cmd
      match res.err with
      | some err =>
        { ctx := (c.Status StatusInternalServerError).SendString err,
          ran := [cmd], logged := [err] }
      | none =>
        let c := c.Set "Content-Type" ("image/" ++ req.Config.Format)
        { ctx := c.Send res.out, ran := [cmd], logged := [] }

/-! ## Auxiliary definitions for the statements -/

/-- An external tool that is a function of its argument list and its standard input,
as the handler runs it. -/
def runTool (tool : List String → String → RunResult) (cmd : Cmd) : RunResult :=
  tool cmd.Args cmd.Stdin

/-- The flags that take a number. -/
def numericFlags : List String :=
  ["--width", "--height", "--quality", "--crop-x", "--crop-y", "--crop-h", "--crop-w"]

/-- The pair of neighbouring tokens `a`, `b` is not a numeric flag followed by `0`. -/
def NoExplicitZero (a b : String) : Prop :=
  ¬ (a ∈ numericFlags ∧ b = "0")

/-- Token `i` of `args` is `flag` and token `i + 1` is `value`. -/
def AdjacentAt (args : List String) (i : Nat) (flag value : String) : Prop :=
  args[i]? = some flag ∧ args[i + 1]? = some value

/-- Somewhere in `args` the token `flag` is immediately followed by `value`. -/
def Adjacent (args : List String) (flag value : String) : Prop :=
  ∃ i, AdjacentAt args i flag value

/-- A character the escaped cookie value may contain: an ASCII letter or digit, or one
of `-_.~+%`. -/
def escapedChar (ch : Char) : Prop :=
  ch.isAlphanum = true ∨ ch ∈ "-_.~+%".data

/-- The escaping of one byte in the words of the specification: a space becomes `+`; an
ASCII letter or digit and each of `-`, `_`, `.`, `~` is kept; any other byte becomes `%`
followed by its two hexadecimal digits in upper case. -/
def escapeWords (b : UInt8) : List Char :=
  if b = 0x20 then ['+']
  else if (Char.ofNat b.toNat).isAlphanum || "-_.~".data.contains (Char.ofNat b.toNat) then
    [Char.ofNat b.toNat]
  else ['%', (Nat.digitChar (b.toNat / 16)).toUpper, (Nat.digitChar (b.toNat % 16)).toUpper]

/-- A decoder for the worked examples: it knows the two request bodies of the specification's
end-to-end examples. -/
def exampleParser (raw : String) : Except String GenerateImage :=
  if raw = "\x7b\"html\":\"<p>hi</p>\",\"config\":\x7b\"format\":\"tiff\"\x7d\x7d" then
    .ok { Html := "<p>hi</p>", Config := { Config.zero with Format := "tiff" } }
  else if raw = "\x7b\"html\":\"<p>hi</p>\",\"config\":\x7b\"format\":\"png\"\x7d\x7d" then
    .ok { Html := "<p>hi</p>", Config := { Config.zero with Format := "png" } }
  else .error "unexpected end of JSON input"

/-! ## Lemmas on the builder -/

theorem ite_append_tokens (p : Prop) [Decidable p] (l x : List String) :
    (if p then l ++ x else l) = l ++ (if p then x else []) := by
  split <;> simp

theorem foldl_appendCookie (cookies : List Cookie) (acc : List String) :
    cookies.foldl appendCookie acc
      = acc ++ cookies.flatMap
          (fun cookie => ["--cookie", cookie.Key ++ "=" ++ QueryEscape cookie.Value]) := by
  induction cookies generalizing acc with
  | nil => simp
  | cons k ks ih => simp [List.foldl_cons, ih, appendCookie]

theorem isValidFormat_iff (format : String) :
    isValidFormat format = true ↔ format ∈ ["png", "jpg", "jpeg", "svg", "bmp"] := by
  simp [isValidFormat, ValidFormats]

theorem generateArguments_invalid (config : Config) (h : isValidFormat config.Format = false) :
    generateArguments config = .error ("invalid format: " ++ config.Format) := by
  simp [generateArguments, h]

theorem generateArguments_valid (config : Config) (h : isValidFormat config.Format = true) :
    generateArguments config = .ok (specArguments config) := by
  have hne : config.Format ≠ "" := by
    intro h0
    rw [h0] at h
    exact absurd h (by decide)
  have hcookies : (if config.Cookies.length > 0 then
        config.Cookies.flatMap
          (fun cookie => ["--cookie", cookie.Key ++ "=" ++ QueryEscape cookie.Value])
      else []) = config.Cookies.flatMap
          (fun cookie => ["--cookie", cookie.Key ++ "=" ++ QueryEscape cookie.Value]) := by
    cases config.Cookies <;> simp
  unfold generateArguments
  simp -zeta only [h, Bool.not_true, Bool.false_eq_true, if_false, foldl_appendCookie,
    ite_append_tokens]
  simp only [hcookies, List.nil_append, List.append_assoc, bne_iff_ne, ne_eq, hne,
    not_false_eq_true, if_true, specArguments]

/-! ## The format check -/

/-- C1: whatever the other fields, a format among png, jpg, jpeg, svg, bmp makes
`generateArguments` succeed with a result that starts with the two tokens `-f`, format;
any other non-empty format (case variants included) makes it fail with the error text
`invalid format: ` followed by the format, and no argument list is returned. -/
theorem generateArguments_format_check (config : Config) :
    (config.Format ∈ ["png", "jpg", "jpeg", "svg", "bmp"] →
      ∃ rest, generateArguments config = .ok ("-f" :: config.Format :: rest)) ∧
    (config.Format ∉ ["png", "jpg", "jpeg", "svg", "bmp"] → config.Format ≠ "" →
      generateArguments config = .error ("invalid format: " ++ config.Format)) := by
  constructor
  · intro h
    rw [generateArguments_valid config ((isValidFormat_iff _).mpr h)]
    simp only [specArguments, List.append_assoc, List.cons_append, List.nil_append]
    exact ⟨_, rfl⟩
  · intro h _
    apply generateArguments_invalid
    cases hv : isValidFormat config.Format
    · rfl
    · exact absurd ((isValidFormat_iff _).mp hv) h

theorem generateArguments_format_check_witness :
    (∃ rest, generateArguments
        { Config.zero with Format := "jpeg", Width := 800, Transparent := true }
        = .ok ("-f" :: "jpeg" :: rest)) ∧
      generateArguments { Config.zero with Format := "PNG", Width := 800 }
        = .error ("invalid format: " ++ "PNG") :=
  ⟨(generateArguments_format_check
      { Config.zero with Format := "jpeg", Width := 800, Transparent := true }).1 (by decide),
    (generateArguments_format_check { Config.zero with Format := "PNG", Width := 800 }).2
      (by decide) (by decide)⟩

/-- C2: the code at the failing input.  With the empty format `generateArguments` does
not succeed: whatever the other fields hold, it returns the error `invalid format: `
and no argument list, because the empty string is not a key of `ValidFormats`. -/
theorem generateArguments_empty_format (config : Config) :
    generateArguments { config with Format := "" } = .error "invalid format: " ∧
      generateArguments Config.zero = .error "invalid format: " := by
  constructor
  · exact generateArguments_invalid _ rfl
  · rfl

/-! ## The shape of the argument list -/

/-- C3: for a valid format the result of `generateArguments` is exactly the
concatenation `specArguments`: `-f` and the format, then the segments of width, height,
disable-smart-width, encoding, quality, transparent, crop-x, crop-y, crop-h, crop-w,
each present only when its field is non-zero (numbers in signed decimal), then one
`--cookie key=escapedValue` pair per cookie in input order, and nothing else. -/
theorem generateArguments_eq_specArguments (config : Config)
    (h : config.Format ∈ ["png", "jpg", "jpeg", "svg", "bmp"]) :
    generateArguments config = .ok (specArguments config) :=
  generateArguments_valid config ((isValidFormat_iff _).mpr h)

theorem generateArguments_eq_specArguments_witness :
    "bmp" ∈ ["png", "jpg", "jpeg", "svg", "bmp"] ∧
      generateArguments
        { Format := "bmp", Width := -3, Height := 0, DisableSmartWidth := true,
          Encoding := "utf-8", Crop := ⟨10, 0, 0, 5⟩, Quality := 90, Transparent := false,
          Cookies := [⟨"a", "b c"⟩, ⟨"k", "é=&~"⟩] }
        = .ok (specArguments
          { Format := "bmp", Width := -3, Height := 0, DisableSmartWidth := true,
            Encoding := "utf-8", Crop := ⟨10, 0, 0, 5⟩, Quality := 90, Transparent := false,
            Cookies := [⟨"a", "b c"⟩, ⟨"k", "é=&~"⟩] }) ∧
      specArguments
        { Format := "bmp", Width := -3, Height := 0, DisableSmartWidth := true,
          Encoding := "utf-8", Crop := ⟨10, 0, 0, 5⟩, Quality := 90, Transparent := false,
          Cookies := [⟨"a", "b c"⟩, ⟨"k", "é=&~"⟩] }
        = ["-f", "bmp", "--width", "-3", "--disable-smart-width", "--encoding", "utf-8",
            "--quality", "90", "--crop-x", "10", "--crop-h", "5", "--cookie", "a=b+c",
            "--cookie", "k=%C3%A9%3D%26~"] :=
  ⟨by decide, generateArguments_eq_specArguments _ (by decide), by decide⟩

/-- C4: for a valid format, when every optional field is zero or empty (the numbers 0,
the booleans false, the encoding empty, no cookies), `generateArguments` returns exactly
the two tokens `-f`, format. -/
theorem generateArguments_only_format (config : Config)
    (h : config.Format ∈ ["png", "jpg", "jpeg", "svg", "bmp"])
    (hWidth : config.Width = 0) (hHeight : config.Height = 0)
    (hQuality : config.Quality = 0)
    (hX : config.Crop.X = 0) (hY : config.Crop.Y = 0)
    (hW : config.Crop.W = 0) (hH : config.Crop.H = 0)
    (hSmart : config.DisableSmartWidth = false) (hTransparent : config.Transparent = false)
    (hEncoding : config.Encoding = "") (hCookies : config.Cookies = []) :
    generateArguments config = .ok ["-f", config.Format] := by
  rw [generateArguments_valid config ((isValidFormat_iff _).mpr h)]
  simp [specArguments, hWidth, hHeight, hQuality, hX, hY, hW, hH, hSmart, hTransparent,
    hEncoding, hCookies]

theorem generateArguments_only_format_witness :
    generateArguments { Config.zero with Format := "svg" } = .ok ["-f", "svg"] :=
  generateArguments_only_format { Config.zero with Format := "svg" } (by decide) rfl rfl rfl
    rfl rfl rfl rfl rfl rfl rfl rfl

/-! ## Lemmas on the decimal rendering -/

theorem digitChar_isDigit (k : Nat) (hk : k < 10) : (Nat.digitChar k).isDigit = true := by
  interval_cases k <;> decide

theorem digitChar_eq_zero (k : Nat) (hk : k < 10) (h : Nat.digitChar k = '0') : k = 0 := by
  interval_cases k <;> first | rfl | exact absurd h (by decide)

theorem toDigitsCore_mem (fuel n : Nat) (ds : List Char) (ch : Char)
    (h : ch ∈ Nat.toDigitsCore 10 fuel n ds) : ch ∈ ds ∨ ch.isDigit = true := by
  induction fuel generalizing n ds with
  | zero => exact Or.inl (by simpa [Nat.toDigitsCore] using h)
  | succ fuel ih =>
    simp only [Nat.toDigitsCore] at h
    split at h
    · rcases List.mem_cons.mp h with h | h
      · exact Or.inr (h ▸ digitChar_isDigit _ (Nat.mod_lt _ (by decide)))
      · exact Or.inl h
    · rcases ih _ _ h with h | h
      · rcases List.mem_cons.mp h with h | h
        · exact Or.inr (h ▸ digitChar_isDigit _ (Nat.mod_lt _ (by decide)))
        · exact Or.inl h
      · exact Or.inr h

theorem toDigitsCore_length (fuel n : Nat) (ds : List Char) :
    ds.length + min fuel 1 ≤ (Nat.toDigitsCore 10 fuel n ds).length := by
  induction fuel generalizing n ds with
  | zero => simp [Nat.toDigitsCore]
  | succ fuel ih =>
    simp only [Nat.toDigitsCore]
    split
    · simp
    · have := ih (n / 10) (Nat.digitChar (n % 10) :: ds)
      simp only [List.length_cons] at this
      omega

theorem repr_data (n : Nat) : (Nat.repr n).data = Nat.toDigits 10 n := rfl

theorem repr_eq_zero (n : Nat) (h : Nat.repr n = "0") : n = 0 := by
  have hd : Nat.toDigits 10 n = ['0'] := by
    rw [← repr_data, h]
  by_contra hn
  simp only [Nat.toDigits, Nat.toDigitsCore] at hd
  split at hd
  · rename_i h0
    have hz := digitChar_eq_zero _ (Nat.mod_lt _ (by decide)) (List.cons.inj hd).1
    omega
  · rename_i h0
    have hlen := toDigitsCore_length n (n / 10) [Nat.digitChar (n % 10)]
    rw [hd] at hlen
    have : 1 ≤ n := Nat.one_le_iff_ne_zero.mpr hn
    simp only [List.length_cons, List.length_nil] at hlen
    omega

theorem sprintfD_mem (i : Int) (ch : Char) (h : ch ∈ (sprintfD i).data) :
    ch = '-' ∨ ch.isDigit = true := by
  unfold sprintfD at h
  have hrepr : ∀ n : Nat, ch ∈ (Nat.repr n).data → ch.isDigit = true := by
    intro n hn
    rw [repr_data] at hn
    rcases toDigitsCore_mem _ _ _ _ hn with h | h
    · simp at h
    · exact h
  split at h
  · rw [String.data_append] at h
    rcases List.mem_append.mp h with h | h
    · exact Or.inl (by simpa using h)
    · exact Or.inr (hrepr _ h)
  · exact Or.inr (hrepr _ h)

theorem sprintfD_eq_zero (i : Int) (h : sprintfD i = "0") : i = 0 := by
  unfold sprintfD at h
  split at h
  · have := congrArg String.data h
    rw [String.data_append] at this
    exact absurd (List.cons.inj this).1 (by decide)
  · exact Int.natAbs_eq_zero.mp (repr_eq_zero _ h)

/-- A token holding a character that is neither a digit nor `-` is not a number. -/
theorem sprintfD_ne_of_mem (i : Int) (t : String) (ch : Char) (hch : ch ∈ t.data)
    (h1 : ch ≠ '-') (h2 : ch.isDigit = false) : sprintfD i ≠ t := by
  intro h
  rcases sprintfD_mem i ch (h ▸ hch) with h | h
  · exact h1 h
  · rw [h2] at h
    exact absurd h (by decide)


/-! ## Lemmas on the tokens of the argument list -/

theorem mem_ite_tokens (p : Prop) [Decidable p] (l : List String) (t : String) :
    t ∈ (if p then l else []) ↔ p ∧ t ∈ l := by
  split <;> simp [*]

/-- Where a token of the argument list can come from. -/
theorem mem_specArguments (config : Config) (t : String) (h : t ∈ specArguments config) :
    t = "-f" ∨ t = config.Format
      ∨ (config.Width ≠ 0 ∧ t = "--width") ∨ (config.Height ≠ 0 ∧ t = "--height")
      ∨ (config.DisableSmartWidth = true ∧ t = "--disable-smart-width")
      ∨ t = "--encoding" ∨ t = config.Encoding
      ∨ (config.Quality ≠ 0 ∧ t = "--quality")
      ∨ (config.Transparent = true ∧ t = "--transparent")
      ∨ (config.Crop.X ≠ 0 ∧ t = "--crop-x") ∨ (config.Crop.Y ≠ 0 ∧ t = "--crop-y")
      ∨ (config.Crop.H ≠ 0 ∧ t = "--crop-h") ∨ (config.Crop.W ≠ 0 ∧ t = "--crop-w")
      ∨ (∃ i : Int, t = sprintfD i)
      ∨ t = "--cookie" ∨ (∃ key value : String, t = key ++ "=" ++ value) := by
  simp only [specArguments, List.mem_append, mem_ite_tokens, List.mem_cons, List.mem_flatMap,
    List.mem_singleton, List.not_mem_nil, or_false, or_assoc] at h
  rcases h with e | e | ⟨hp, e | e⟩ | ⟨hp, e | e⟩ | ⟨hp, e⟩ | ⟨hp, e | e⟩ | ⟨hp, e | e⟩
    | ⟨hp, e⟩ | ⟨hp, e | e⟩ | ⟨hp, e | e⟩ | ⟨hp, e | e⟩ | ⟨hp, e | e⟩ | ⟨k, _, e | e⟩
  all_goals first
    | (simp only [e, hp, ne_eq, not_false_eq_true, true_and, true_or, or_true]; done)
    | (simp only [e, true_or, or_true]; done)
    | (have hnum : ∃ i : Int, t = sprintfD i := ⟨_, e⟩
       simp only [hnum, true_or, or_true])
    | (have hkv : ∃ key value : String, t = key ++ "=" ++ value := ⟨_, _, e⟩
       simp only [hkv, true_or, or_true])

theorem key_value_mem (key value : String) : '=' ∈ (key ++ "=" ++ value).data := by
  simp [String.data_append]

/-- A crop flag whose field is zero is no token of the argument list, unless the
encoding spells it. -/
theorem crop_flag_not_mem (config : Config) (flag : String)
    (hflag : flag ∈ ["--crop-x", "--crop-y", "--crop-h", "--crop-w"])
    (hfmt : config.Format ∈ ["png", "jpg", "jpeg", "svg", "bmp"])
    (henc : config.Encoding ≠ flag)
    (hX : flag = "--crop-x" → config.Crop.X = 0) (hY : flag = "--crop-y" → config.Crop.Y = 0)
    (hH : flag = "--crop-h" → config.Crop.H = 0) (hW : flag = "--crop-w" → config.Crop.W = 0) :
    flag ∉ specArguments config := by
  intro hmem
  have hc : 'c' ∈ flag.data := by
    simp only [List.mem_cons, List.mem_singleton, List.not_mem_nil, or_false] at hflag
    rcases hflag with e | e | e | e <;> subst e <;> decide
  have heq : '=' ∉ flag.data := by
    simp only [List.mem_cons, List.mem_singleton, List.not_mem_nil, or_false] at hflag
    rcases hflag with e | e | e | e <;> subst e <;> decide
  have hlit : ∀ s ∈ ["-f", "--width", "--height", "--disable-smart-width", "--encoding",
      "--quality", "--transparent", "--cookie", "png", "jpg", "jpeg", "svg", "bmp"],
      flag ≠ s := by
    simp only [List.mem_cons, List.mem_singleton, List.not_mem_nil, or_false] at hflag
    rcases hflag with e | e | e | e <;> subst e <;> decide
  rcases mem_specArguments config flag hmem with e | e | ⟨_, e⟩ | ⟨_, e⟩ | ⟨_, e⟩ | e | e
    | ⟨_, e⟩ | ⟨_, e⟩ | ⟨hp, e⟩ | ⟨hp, e⟩ | ⟨hp, e⟩ | ⟨hp, e⟩ | ⟨i, e⟩ | e | ⟨key, value, e⟩
  · exact hlit _ (by decide) e
  · rw [← e] at hfmt
    simp only [List.mem_cons, List.mem_singleton, List.not_mem_nil, or_false] at hfmt
    rcases hfmt with e | e | e | e | e <;> exact hlit _ (by decide) e
  · exact hlit _ (by decide) e
  · exact hlit _ (by decide) e
  · exact hlit _ (by decide) e
  · exact hlit _ (by decide) e
  · exact henc e.symm
  · exact hlit _ (by decide) e
  · exact hlit _ (by decide) e
  · exact hp (hX e)
  · exact hp (hY e)
  · exact hp (hH e)
  · exact hp (hW e)
  · exact sprintfD_ne_of_mem i flag 'c' hc (by decide) (by decide) e.symm
  · exact hlit _ (by decide) e
  · exact heq (e ▸ key_value_mem key value)

/-! ## Lemmas on adjacent tokens -/

theorem adjacentAt_append_right {l : List String} {i : Nat} {f v : String}
    (h : AdjacentAt l i f v) (s : List String) : AdjacentAt (l ++ s) i f v := by
  obtain ⟨h1, h2⟩ := h
  have hi : i + 1 < l.length := by
    rcases Nat.lt_or_ge (i + 1) l.length with hlt | hge
    · exact hlt
    · rw [List.getElem?_eq_none hge] at h2
      exact absurd h2 (by simp)
  exact ⟨by rw [List.getElem?_append_left (by omega)]; exact h1,
    by rw [List.getElem?_append_left hi]; exact h2⟩

theorem adjacentAt_append_left {l : List String} {i : Nat} {f v : String}
    (h : AdjacentAt l i f v) (p : List String) : AdjacentAt (p ++ l) (p.length + i) f v := by
  obtain ⟨h1, h2⟩ := h
  refine ⟨?_, ?_⟩
  · rw [List.getElem?_append_right (by omega)]
    simpa using h1
  · rw [List.getElem?_append_right (by omega)]
    have : p.length + i + 1 - p.length = i + 1 := by omega
    rw [this]
    exact h2

theorem adjacent_append_right {l : List String} {f v : String} (h : Adjacent l f v)
    (s : List String) : Adjacent (l ++ s) f v :=
  h.elim fun i hi => ⟨i, adjacentAt_append_right hi s⟩

theorem adjacent_append_left {l : List String} {f v : String} (h : Adjacent l f v)
    (p : List String) : Adjacent (p ++ l) f v :=
  h.elim fun i hi => ⟨p.length + i, adjacentAt_append_left hi p⟩

theorem adjacent_pair (f v : String) : Adjacent [f, v] f v :=
  ⟨0, rfl, rfl⟩

theorem adjacent_cropX (config : Config) (h : config.Crop.X ≠ 0) :
    Adjacent (specArguments config) "--crop-x" (sprintfD config.Crop.X) := by
  unfold specArguments
  refine adjacent_append_right (adjacent_append_right (adjacent_append_right
    (adjacent_append_right (adjacent_append_left ?_ _) _) _) _) _
  rw [if_pos h]
  exact adjacent_pair _ _

theorem adjacent_cropY (config : Config) (h : config.Crop.Y ≠ 0) :
    Adjacent (specArguments config) "--crop-y" (sprintfD config.Crop.Y) := by
  unfold specArguments
  refine adjacent_append_right (adjacent_append_right (adjacent_append_right
    (adjacent_append_left ?_ _) _) _) _
  rw [if_pos h]
  exact adjacent_pair _ _

theorem adjacent_cropH (config : Config) (h : config.Crop.H ≠ 0) :
    Adjacent (specArguments config) "--crop-h" (sprintfD config.Crop.H) := by
  unfold specArguments
  refine adjacent_append_right (adjacent_append_right (adjacent_append_left ?_ _) _) _
  rw [if_pos h]
  exact adjacent_pair _ _

theorem adjacent_cropW (config : Config) (h : config.Crop.W ≠ 0) :
    Adjacent (specArguments config) "--crop-w" (sprintfD config.Crop.W) := by
  unfold specArguments
  refine adjacent_append_right (adjacent_append_left ?_ _) _
  rw [if_pos h]
  exact adjacent_pair _ _

/-! ## Zero as unset -/

/-- C5, as stated for the zero case, fails: the crop field Y is zero, yet the argument
list holds the token `--crop-y`, which the encoding contributed. -/
theorem crop_flag_from_encoding :
    ({ Config.zero with Format := "png", Encoding := "--crop-y" } : Config).Format
        ∈ ["png", "jpg", "jpeg", "svg", "bmp"] ∧
      ({ Config.zero with Format := "png", Encoding := "--crop-y" } : Config).Crop.Y = 0 ∧
      generateArguments { Config.zero with Format := "png", Encoding := "--crop-y" }
        = .ok ["-f", "png", "--encoding", "--crop-y"] ∧
      "--crop-y" ∈ ["-f", "png", "--encoding", "--crop-y"] := by
  decide

/-- C5 (amended): for a valid format and any other fields, each crop field X, Y, H, W
that is non-zero puts its flag into the argument list, immediately followed by the
decimal of the field; each crop field that is zero leaves its flag out of the list (no
token equals the flag) provided the encoding is not that flag. -/
theorem crop_zero_as_unset (config : Config)
    (h : config.Format ∈ ["png", "jpg", "jpeg", "svg", "bmp"]) :
    ∃ args, generateArguments config = .ok args ∧
      (config.Crop.X ≠ 0 → Adjacent args "--crop-x" (sprintfD config.Crop.X)) ∧
      (config.Crop.Y ≠ 0 → Adjacent args "--crop-y" (sprintfD config.Crop.Y)) ∧
      (config.Crop.H ≠ 0 → Adjacent args "--crop-h" (sprintfD config.Crop.H)) ∧
      (config.Crop.W ≠ 0 → Adjacent args "--crop-w" (sprintfD config.Crop.W)) ∧
      (config.Crop.X = 0 → config.Encoding ≠ "--crop-x" → "--crop-x" ∉ args) ∧
      (config.Crop.Y = 0 → config.Encoding ≠ "--crop-y" → "--crop-y" ∉ args) ∧
      (config.Crop.H = 0 → config.Encoding ≠ "--crop-h" → "--crop-h" ∉ args) ∧
      (config.Crop.W = 0 → config.Encoding ≠ "--crop-w" → "--crop-w" ∉ args) := by
  refine ⟨specArguments config, generateArguments_valid config ((isValidFormat_iff _).mpr h),
    adjacent_cropX config, adjacent_cropY config, adjacent_cropH config,
    adjacent_cropW config, ?_, ?_, ?_, ?_⟩
  · intro h0 henc
    exact crop_flag_not_mem config _ (by decide) h henc (fun _ => h0)
      (fun e => absurd e (by decide)) (fun e => absurd e (by decide))
      (fun e => absurd e (by decide))
  · intro h0 henc
    exact crop_flag_not_mem config _ (by decide) h henc (fun e => absurd e (by decide))
      (fun _ => h0) (fun e => absurd e (by decide)) (fun e => absurd e (by decide))
  · intro h0 henc
    exact crop_flag_not_mem config _ (by decide) h henc (fun e => absurd e (by decide))
      (fun e => absurd e (by decide)) (fun _ => h0) (fun e => absurd e (by decide))
  · intro h0 henc
    exact crop_flag_not_mem config _ (by decide) h henc (fun e => absurd e (by decide))
      (fun e => absurd e (by decide)) (fun e => absurd e (by decide)) (fun _ => h0)

/-- The specification's example: crop = {x:10, y:0, w:0, h:5}. -/
theorem crop_zero_as_unset_witness :
    ∃ args, generateArguments { Config.zero with Format := "png", Crop := ⟨10, 0, 0, 5⟩ }
        = .ok args ∧
      Adjacent args "--crop-x" "10" ∧ Adjacent args "--crop-h" "5" ∧
      "--crop-y" ∉ args ∧ "--crop-w" ∉ args := by
  obtain ⟨args, hargs, hX, _, hH, _, _, hY0, _, hW0⟩ :=
    crop_zero_as_unset { Config.zero with Format := "png", Crop := ⟨10, 0, 0, 5⟩ } (by decide)
  exact ⟨args, hargs, hX (by decide), hH (by decide), hY0 rfl (by decide),
    hW0 rfl (by decide)⟩

/-! ## No explicit zero -/

theorem chain_append_tokens {l₁ l₂ : List String} (h₁ : List.Chain' NoExplicitZero l₁)
    (h₂ : List.Chain' NoExplicitZero l₂ ∧ ∀ y ∈ l₂.head?, y ≠ "0") :
    List.Chain' NoExplicitZero (l₁ ++ l₂) :=
  List.Chain'.append h₁ h₂.1 (fun _ _ y hy hbad => h₂.2 y hy hbad.2)

/-- A segment `flag, decimal` of a numeric field, present when the field is non-zero. -/
theorem chain_numeric_segment (flag : String) (i : Int) (hflag : flag ≠ "0") :
    List.Chain' NoExplicitZero (if i ≠ 0 then [flag, sprintfD i] else []) ∧
      ∀ y ∈ (if i ≠ 0 then [flag, sprintfD i] else []).head?, y ≠ "0" := by
  split
  · rename_i hi
    refine ⟨List.chain'_pair.mpr (fun hbad => hi (sprintfD_eq_zero i hbad.2)), ?_⟩
    intro y hy
    simp only [List.head?_cons, Option.mem_def, Option.some.injEq] at hy
    exact hy ▸ hflag
  · exact ⟨List.chain'_nil, by simp⟩

/-- A segment of one flag, present when a boolean field is set. -/
theorem chain_flag_segment (flag : String) (b : Bool) (hflag : flag ≠ "0") :
    List.Chain' NoExplicitZero (if b = true then [flag] else []) ∧
      ∀ y ∈ (if b = true then [flag] else []).head?, y ≠ "0" := by
  split
  · refine ⟨List.chain'_singleton _, ?_⟩
    intro y hy
    simp only [List.head?_cons, Option.mem_def, Option.some.injEq] at hy
    exact hy ▸ hflag
  · exact ⟨List.chain'_nil, by simp⟩

/-- A segment `flag, value` whose flag takes no number. -/
theorem chain_text_segment (p : Prop) [Decidable p] (flag value : String) (hflag : flag ≠ "0")
    (hnum : flag ∉ numericFlags) :
    List.Chain' NoExplicitZero (if p then [flag, value] else []) ∧
      ∀ y ∈ (if p then [flag, value] else []).head?, y ≠ "0" := by
  split
  · refine ⟨List.chain'_pair.mpr (fun hbad => hnum hbad.1), ?_⟩
    intro y hy
    simp only [List.head?_cons, Option.mem_def, Option.some.injEq] at hy
    exact hy ▸ hflag
  · exact ⟨List.chain'_nil, by simp⟩

theorem chain_cookies (cookies : List Cookie) :
    List.Chain' NoExplicitZero (cookies.flatMap
        (fun cookie => ["--cookie", cookie.Key ++ "=" ++ QueryEscape cookie.Value])) ∧
      ∀ y ∈ (cookies.flatMap
        (fun cookie => ["--cookie", cookie.Key ++ "=" ++ QueryEscape cookie.Value])).head?,
        y ≠ "0" := by
  induction cookies with
  | nil => exact ⟨List.chain'_nil, by simp⟩
  | cons k ks ih =>
    simp only [List.flatMap_cons, List.cons_append, List.nil_append]
    refine ⟨?_, ?_⟩
    · refine List.Chain'.cons' (List.Chain'.cons' ih.1 ?_) ?_
      · intro y hy hbad
        exact ih.2 y hy hbad.2
      · intro y hy hbad
        exact absurd hbad.1 (by decide)
    · intro y hy
      simp only [List.head?_cons, Option.mem_def, Option.some.injEq] at hy
      exact hy ▸ (by decide)

theorem chain_specArguments (config : Config) :
    List.Chain' NoExplicitZero (specArguments config) := by
  unfold specArguments
  refine chain_append_tokens (chain_append_tokens (chain_append_tokens (chain_append_tokens
    (chain_append_tokens (chain_append_tokens (chain_append_tokens (chain_append_tokens
    (chain_append_tokens (chain_append_tokens (chain_append_tokens ?_
      (chain_numeric_segment _ _ (by decide)))
      (chain_numeric_segment _ _ (by decide)))
      (chain_flag_segment _ _ (by decide)))
      (chain_text_segment _ _ _ (by decide) (by decide)))
      (chain_numeric_segment _ _ (by decide)))
      (chain_flag_segment _ _ (by decide)))
      (chain_numeric_segment _ _ (by decide)))
      (chain_numeric_segment _ _ (by decide)))
      (chain_numeric_segment _ _ (by decide)))
      (chain_numeric_segment _ _ (by decide)))
      (chain_cookies _)
  exact List.chain'_pair.mpr (fun hbad => absurd hbad.1 (by decide))

/-- C6: the builder cannot emit an explicit zero.  Whenever `generateArguments`
succeeds, for arbitrary encodings and cookies, no position `i` of the result holds one
of `--width`, `--height`, `--quality`, `--crop-x`, `--crop-y`, `--crop-h`, `--crop-w`
with the token `0` at position `i + 1`. -/
theorem generateArguments_no_explicit_zero (config : Config) (args : List String)
    (h : generateArguments config = .ok args) :
    ¬ ∃ i flag, flag ∈ ["--width", "--height", "--quality", "--crop-x", "--crop-y",
        "--crop-h", "--crop-w"] ∧ args[i]? = some flag ∧ args[i + 1]? = some "0" := by
  have hargs : args = specArguments config := by
    cases hv : isValidFormat config.Format
    · rw [generateArguments_invalid config hv] at h
      exact absurd h (by simp)
    · rw [generateArguments_valid config hv] at h
      exact (Except.ok.inj h).symm
  rintro ⟨i, flag, hflag, h1, h2⟩
  have hchain := chain_specArguments config
  rw [← hargs] at hchain
  have hi : i + 1 < args.length := by
    rcases Nat.lt_or_ge (i + 1) args.length with hlt | hge
    · exact hlt
    · rw [List.getElem?_eq_none hge] at h2
      exact absurd h2 (by simp)
  have hrel := List.chain'_iff_get.mp hchain i (by omega)
  rw [List.getElem?_eq_getElem (by omega)] at h1
  rw [List.getElem?_eq_getElem hi] at h2
  have e1 := Option.some.inj h1
  have e2 := Option.some.inj h2
  exact hrel ⟨by rw [List.get_eq_getElem, e1]; exact hflag, by rw [List.get_eq_getElem, e2]⟩

theorem generateArguments_no_explicit_zero_witness :
    generateArguments
        { Config.zero with
          Format := "png", Width := 0, Encoding := "--width", Crop := ⟨0, 7, 0, 0⟩,
          Cookies := [⟨"0", "0"⟩] }
        = .ok ["-f", "png", "--encoding", "--width", "--crop-y", "7", "--cookie", "0=0"] ∧
      ¬ ∃ i flag, flag ∈ ["--width", "--height", "--quality", "--crop-x", "--crop-y",
        "--crop-h", "--crop-w"] ∧
        ["-f", "png", "--encoding", "--width", "--crop-y", "7", "--cookie", "0=0"][i]?
          = some flag ∧
        ["-f", "png", "--encoding", "--width", "--crop-y", "7", "--cookie", "0=0"][i + 1]?
          = some "0" :=
  ⟨by decide, generateArguments_no_explicit_zero
    { Config.zero with
      Format := "png", Width := 0, Encoding := "--width", Crop := ⟨0, 7, 0, 0⟩,
      Cookies := [⟨"0", "0"⟩] } _ (by decide)⟩

/-! ## Cookie value escaping -/

set_option maxRecDepth 100000 in
theorem escapeByte_ofNat_eq_escapeWords :
    ∀ n < 256, escapeByte (UInt8.ofNat n) = escapeWords (UInt8.ofNat n) := by
  decide

set_option maxRecDepth 100000 in
theorem escapeByte_ofNat_chars :
    ∀ n < 256, (escapeByte (UInt8.ofNat n)).all
      (fun ch => ch != ' ' && (ch.isAlphanum || "-_.~+%".data.contains ch)) = true := by
  decide

theorem uint8_ofNat_toNat (b : UInt8) : UInt8.ofNat b.toNat = b := by
  cases b with
  | mk v =>
    apply UInt8.ext
    simp [UInt8.ofNat, UInt8.toNat, Fin.ofNat, Nat.mod_eq_of_lt v.isLt]

theorem escapeByte_eq_escapeWords (b : UInt8) : escapeByte b = escapeWords b := by
  have h := escapeByte_ofNat_eq_escapeWords b.toNat b.val.isLt
  rwa [uint8_ofNat_toNat] at h

theorem escapeByte_chars (b : UInt8) (ch : Char) (h : ch ∈ escapeByte b) :
    ch ≠ ' ' ∧ escapedChar ch := by
  have hall := escapeByte_ofNat_chars b.toNat b.val.isLt
  rw [uint8_ofNat_toNat] at hall
  have hch := List.all_eq_true.mp hall ch h
  simp only [Bool.and_eq_true, bne_iff_ne, ne_eq, Bool.or_eq_true] at hch
  exact ⟨hch.1, hch.2.imp id List.mem_of_elem_eq_true⟩

theorem queryEscape_chars (value : String) (ch : Char) (h : ch ∈ (QueryEscape value).data) :
    ch ≠ ' ' ∧ escapedChar ch := by
  simp only [QueryEscape, List.mem_flatMap] at h
  obtain ⟨b, _, hb⟩ := h
  exact escapeByte_chars b ch hb

theorem queryEscape_data (value : String) :
    (QueryEscape value).data = (bytesOf value).flatMap escapeWords := by
  have : escapeByte = escapeWords := funext escapeByte_eq_escapeWords
  simp only [QueryEscape, this]

theorem specArguments_cookies (config : Config) :
    specArguments config = specArguments { config with Cookies := [] }
      ++ config.Cookies.flatMap
        (fun cookie => ["--cookie", cookie.Key ++ "=" ++ QueryEscape cookie.Value]) := by
  simp only [specArguments, List.flatMap_nil, List.append_nil]

theorem adjacent_cookie (cookies : List Cookie) (cookie : Cookie) (h : cookie ∈ cookies) :
    Adjacent (cookies.flatMap
        (fun cookie => ["--cookie", cookie.Key ++ "=" ++ QueryEscape cookie.Value]))
      "--cookie" (cookie.Key ++ "=" ++ QueryEscape cookie.Value) := by
  obtain ⟨before, after, rfl⟩ := List.append_of_mem h
  rw [List.flatMap_append, List.flatMap_cons]
  exact adjacent_append_left (adjacent_append_right (adjacent_pair _ _) _) _

/-- C7: for a valid format the argument list ends with one pair per cookie, in input
order: the token `--cookie` followed by the key, `=` and the escaped value.  The escaped
value is the value byte by byte, a space turned into `+`, an ASCII letter, digit, `-`,
`_`, `.` or `~` kept, any other byte turned into `%` and its two upper-case hex digits;
hence it holds no space and only letters, digits and the characters `-_.~+%`. -/
theorem cookie_value_escaped (config : Config)
    (h : config.Format ∈ ["png", "jpg", "jpeg", "svg", "bmp"]) :
    ∃ pre, generateArguments { config with Cookies := [] } = .ok pre ∧
      generateArguments config = .ok (pre ++ config.Cookies.flatMap
        (fun cookie => ["--cookie", cookie.Key ++ "=" ++ QueryEscape cookie.Value])) ∧
      ∀ cookie ∈ config.Cookies,
        Adjacent (pre ++ config.Cookies.flatMap
            (fun cookie => ["--cookie", cookie.Key ++ "=" ++ QueryEscape cookie.Value]))
          "--cookie" (cookie.Key ++ "=" ++ QueryEscape cookie.Value) ∧
        (QueryEscape cookie.Value).data = (bytesOf cookie.Value).flatMap escapeWords ∧
        ∀ ch ∈ (QueryEscape cookie.Value).data, ch ≠ ' ' ∧ escapedChar ch := by
  have hv := (isValidFormat_iff _).mpr h
  refine ⟨specArguments { config with Cookies := [] }, generateArguments_valid _ hv, ?_, ?_⟩
  · rw [generateArguments_valid config hv, specArguments_cookies config]
  · intro cookie hmem
    exact ⟨adjacent_append_left (adjacent_cookie _ cookie hmem) _, queryEscape_data _,
      queryEscape_chars _⟩

/-- The specification's example: cookies = [{key: "a", value: "b c"}]. -/
theorem cookie_value_escaped_witness :
    generateArguments { Config.zero with Format := "png", Cookies := [⟨"a", "b c"⟩] }
        = .ok ["-f", "png", "--cookie", "a=b+c"] ∧
      Adjacent ["-f", "png", "--cookie", "a=b+c"] "--cookie" "a=b+c" ∧
      ∀ ch ∈ "b+c".data, ch ≠ ' ' ∧ escapedChar ch := by
  obtain ⟨pre, hpre, hargs, hcookie⟩ :=
    cookie_value_escaped { Config.zero with Format := "png", Cookies := [⟨"a", "b c"⟩] }
      (by decide)
  have hpre2 : pre = ["-f", "png"] :=
    (Except.ok.inj (hpre.symm.trans
      (show generateArguments { Config.zero with Format := "png" }
        = .ok ["-f", "png"] by decide)))
  subst hpre2
  exact ⟨hargs, (hcookie ⟨"a", "b c"⟩ (List.mem_singleton.mpr rfl)).1,
    (hcookie ⟨"a", "b c"⟩ (List.mem_singleton.mpr rfl)).2.2⟩

/-! ## The request handler -/

theorem handle_of_invalid (BodyParser : String → Except String GenerateImage)
    (Run : Cmd → RunResult) (raw : String) (c : Ctx) (req : GenerateImage) (err : String)
    (hd : BodyParser raw = .ok req) (hargs : generateArguments req.Config = .error err) :
    handleGenerateImageRequest BodyParser Run raw c
      = { ctx := (c.Status StatusBadRequest).SendString err, ran := [], logged := [] } := by
  simp only [handleGenerateImageRequest, hd, hargs]

theorem handle_of_run_error (BodyParser : String → Except String GenerateImage)
    (Run : Cmd → RunResult) (raw : String) (c : Ctx) (req : GenerateImage)
    (args : List String) (err : String)
    (hd : BodyParser raw = .ok req) (hargs : generateArguments req.Config = .ok args)
    (hrun : (Run { Command "wkhtmltoimage" (args ++ ["-", "-"]) with
      Stdin := req.Html }).err = some err) :
    handleGenerateImageRequest BodyParser Run raw c
      = { ctx := (c.Status StatusInternalServerError).SendString err,
          ran := [{ Command "wkhtmltoimage" (args ++ ["-", "-"]) with Stdin := req.Html }],
          logged := [err] } := by
  simp only [handleGenerateImageRequest, hd, hargs, hrun]

theorem handle_of_run_ok (BodyParser : String → Except String GenerateImage)
    (Run : Cmd → RunResult) (raw : String) (c : Ctx) (req : GenerateImage)
    (args : List String)
    (hd : BodyParser raw = .ok req) (hargs : generateArguments req.Config = .ok args)
    (hrun : (Run { Command "wkhtmltoimage" (args ++ ["-", "-"]) with
      Stdin := req.Html }).err = none) :
    handleGenerateImageRequest BodyParser Run raw c
      = { ctx := (c.Set "Content-Type" ("image/" ++ req.Config.Format)).Send
            (Run { Command "wkhtmltoimage" (args ++ ["-", "-"]) with
              Stdin := req.Html }).out,
          ran := [{ Command "wkhtmltoimage" (args ++ ["-", "-"]) with Stdin := req.Html }],
          logged := [] } := by
  simp only [handleGenerateImageRequest, hd, hargs, hrun]

/-- C8: when the body decodes to a request whose format is not one of png, jpg, jpeg,
svg, bmp, the handler answers with status 400 and a body equal to the error text of
`generateArguments`, `invalid format: ` followed by the format, and it never runs the
external tool. -/
theorem handler_invalid_format (BodyParser : String → Except String GenerateImage)
    (Run : Cmd → RunResult) (raw : String) (c : Ctx) (req : GenerateImage)
    (hd : BodyParser raw = .ok req)
    (hf : req.Config.Format ∉ ["png", "jpg", "jpeg", "svg", "bmp"]) :
    (handleGenerateImageRequest BodyParser Run raw c).ctx.status = 400 ∧
      (handleGenerateImageRequest BodyParser Run raw c).ctx.body
        = Body.text ("invalid format: " ++ req.Config.Format) ∧
      generateArguments req.Config = .error ("invalid format: " ++ req.Config.Format) ∧
      (handleGenerateImageRequest BodyParser Run raw c).ran = [] := by
  have hv : isValidFormat req.Config.Format = false := by
    cases hv : isValidFormat req.Config.Format
    · rfl
    · exact absurd ((isValidFormat_iff _).mp hv) hf
  have hargs := generateArguments_invalid req.Config hv
  rw [handle_of_invalid BodyParser Run raw c req _ hd hargs]
  exact ⟨rfl, rfl, hargs, rfl⟩

/-- The specification's example: the format tiff, with a tool that would succeed. -/
theorem handler_invalid_format_witness :
    (handleGenerateImageRequest exampleParser (fun _ => { out := [137, 80], err := none })
        "\x7b\"html\":\"<p>hi</p>\",\"config\":\x7b\"format\":\"tiff\"\x7d\x7d"
        Ctx.fresh).ctx.status = 400 ∧
      (handleGenerateImageRequest exampleParser (fun _ => { out := [137, 80], err := none })
        "\x7b\"html\":\"<p>hi</p>\",\"config\":\x7b\"format\":\"tiff\"\x7d\x7d"
        Ctx.fresh).ctx.body = Body.text "invalid format: tiff" ∧
      generateArguments { Config.zero with Format := "tiff" }
        = .error "invalid format: tiff" ∧
      (handleGenerateImageRequest exampleParser (fun _ => { out := [137, 80], err := none })
        "\x7b\"html\":\"<p>hi</p>\",\"config\":\x7b\"format\":\"tiff\"\x7d\x7d"
        Ctx.fresh).ran = [] :=
  handler_invalid_format exampleParser (fun _ => { out := [137, 80], err := none })
    "\x7b\"html\":\"<p>hi</p>\",\"config\":\x7b\"format\":\"tiff\"\x7d\x7d" Ctx.fresh
    { Html := "<p>hi</p>", Config := { Config.zero with Format := "tiff" } }
    (by decide) (by decide)

/-- C9: when the body decodes, the format is valid and the tool succeeds on the command
the handler runs, the handler answers with status 200 (the status the response had on
entry, which the success path leaves alone), a Content-Type equal to `image/` followed by
the format of the request, and a body equal to exactly the bytes the tool wrote to its
standard output. -/
theorem handler_success (BodyParser : String → Except String GenerateImage)
    (Run : Cmd → RunResult) (raw : String) (c : Ctx) (req : GenerateImage)
    (hc : c.status = 200)
    (hd : BodyParser raw = .ok req)
    (hf : req.Config.Format ∈ ["png", "jpg", "jpeg", "svg", "bmp"])
    (hrun : ∀ args, generateArguments req.Config = .ok args →
      (Run { Command "wkhtmltoimage" (args ++ ["-", "-"]) with Stdin := req.Html }).err
        = none) :
    ∃ args, generateArguments req.Config = .ok args ∧
      (handleGenerateImageRequest BodyParser Run raw c).ctx.status = 200 ∧
      (handleGenerateImageRequest BodyParser Run raw c).ctx.header "Content-Type"
        = some ("image/" ++ req.Config.Format) ∧
      (handleGenerateImageRequest BodyParser Run raw c).ctx.body
        = Body.bytes
          (Run { Command "wkhtmltoimage" (args ++ ["-", "-"]) with Stdin := req.Html }).out := by
  have hargs := generateArguments_valid req.Config ((isValidFormat_iff _).mpr hf)
  refine ⟨_, hargs, ?_⟩
  rw [handle_of_run_ok BodyParser Run raw c req _ hd hargs (hrun _ hargs)]
  refine ⟨hc, ?_, rfl⟩
  simp [Ctx.header, Ctx.Send, Ctx.Set, List.lookup]

/-- The specification's example: the format png, with a tool that writes four bytes. -/
theorem handler_success_witness :
    (handleGenerateImageRequest exampleParser
        (fun _ => { out := [137, 80, 78, 71], err := none })
        "\x7b\"html\":\"<p>hi</p>\",\"config\":\x7b\"format\":\"png\"\x7d\x7d"
        Ctx.fresh).ctx.status = 200 ∧
      (handleGenerateImageRequest exampleParser
        (fun _ => { out := [137, 80, 78, 71], err := none })
        "\x7b\"html\":\"<p>hi</p>\",\"config\":\x7b\"format\":\"png\"\x7d\x7d"
        Ctx.fresh).ctx.header "Content-Type" = some "image/png" ∧
      (handleGenerateImageRequest exampleParser
        (fun _ => { out := [137, 80, 78, 71], err := none })
        "\x7b\"html\":\"<p>hi</p>\",\"config\":\x7b\"format\":\"png\"\x7d\x7d"
        Ctx.fresh).ctx.body = Body.bytes [137, 80, 78, 71] := by
  obtain ⟨_, _, hstatus, hheader, hbody⟩ :=
    handler_success exampleParser (fun _ => { out := [137, 80, 78, 71], err := none })
      "\x7b\"html\":\"<p>hi</p>\",\"config\":\x7b\"format\":\"png\"\x7d\x7d" Ctx.fresh
      { Html := "<p>hi</p>", Config := { Config.zero with Format := "png" } }
      rfl (by decide) (by decide) (fun _ _ => rfl)
  exact ⟨hstatus, hheader, hbody⟩

/-- Every response is a 200 carrying the whole output of a successful run, or a 400 or
500 carrying an error text. -/
theorem handler_response_cases (BodyParser : String → Except String GenerateImage)
    (Run : Cmd → RunResult) (raw : String) (c : Ctx) (hc : c.status = 200) :
    ((handleGenerateImageRequest BodyParser Run raw c).ctx.status = 200 ∧
        ∃ cmd, (handleGenerateImageRequest BodyParser Run raw c).ran = [cmd] ∧
          (Run cmd).err = none ∧
          (handleGenerateImageRequest BodyParser Run raw c).ctx.body
            = Body.bytes (Run cmd).out) ∨
      (((handleGenerateImageRequest BodyParser Run raw c).ctx.status = 400 ∨
          (handleGenerateImageRequest BodyParser Run raw c).ctx.status = 500) ∧
        ∃ err, (handleGenerateImageRequest BodyParser Run raw c).ctx.body = Body.text err) := by
  cases hd : BodyParser raw with
  | error err =>
    right
    simp only [handleGenerateImageRequest, hd]
    exact ⟨Or.inl rfl, err, rfl⟩
  | ok req =>
    cases hargs : generateArguments req.Config with
    | error err =>
      right
      rw [handle_of_invalid BodyParser Run raw c req err hd hargs]
      exact ⟨Or.inl rfl, err, rfl⟩
    | ok args =>
      cases hrun : (Run { Command "wkhtmltoimage" (args ++ ["-", "-"]) with
          Stdin := req.Html }).err with
      | some err =>
        right
        rw [handle_of_run_error BodyParser Run raw c req args err hd hargs hrun]
        exact ⟨Or.inr rfl, err, rfl⟩
      | none =>
        left
        rw [handle_of_run_ok BodyParser Run raw c req args hd hargs hrun]
        exact ⟨hc, _, rfl, hrun, rfl⟩

/-- C10: when the body decodes, the format is valid and running the tool fails with an
error, the handler answers with status 500 and a body that is the error text; the
response is the one on entry with only that status and that text written, so no byte
the tool had written to its standard output reaches it.  Consequently every response,
for any decoder, tool and body, is a 200 carrying the complete output of a successful
run, or a 400 or 500 carrying only an error text. -/
theorem handler_tool_failure (BodyParser : String → Except String GenerateImage)
    (Run : Cmd → RunResult) (raw : String) (c : Ctx) (req : GenerateImage) (err : String)
    (hc : c.status = 200)
    (hd : BodyParser raw = .ok req)
    (hf : req.Config.Format ∈ ["png", "jpg", "jpeg", "svg", "bmp"])
    (hrun : ∀ args, generateArguments req.Config = .ok args →
      (Run { Command "wkhtmltoimage" (args ++ ["-", "-"]) with Stdin := req.Html }).err
        = some err) :
    (handleGenerateImageRequest BodyParser Run raw c).ctx
        = { c with status := 500, body := Body.text err } ∧
      (handleGenerateImageRequest BodyParser Run raw c).ctx.status = 500 ∧
      (handleGenerateImageRequest BodyParser Run raw c).ctx.body = Body.text err ∧
      ∀ (BodyParser2 : String → Except String GenerateImage) (Run2 : Cmd → RunResult)
        (raw2 : String),
        ((handleGenerateImageRequest BodyParser2 Run2 raw2 c).ctx.status = 200 ∧
          ∃ cmd, (handleGenerateImageRequest BodyParser2 Run2 raw2 c).ran = [cmd] ∧
            (Run2 cmd).err = none ∧
            (handleGenerateImageRequest BodyParser2 Run2 raw2 c).ctx.body
              = Body.bytes (Run2 cmd).out) ∨
        (((handleGenerateImageRequest BodyParser2 Run2 raw2 c).ctx.status = 400 ∨
            (handleGenerateImageRequest BodyParser2 Run2 raw2 c).ctx.status = 500) ∧
          ∃ err2, (handleGenerateImageRequest BodyParser2 Run2 raw2 c).ctx.body
            = Body.text err2) := by
  have hargs := generateArguments_valid req.Config ((isValidFormat_iff _).mpr hf)
  rw [handle_of_run_error BodyParser Run raw c req _ err hd hargs (hrun _ hargs)]
  exact ⟨rfl, rfl, rfl, fun P R r => handler_response_cases P R r c hc⟩

/-- A tool that wrote two bytes and then exited with status 1. -/
theorem handler_tool_failure_witness :
    (handleGenerateImageRequest exampleParser
        (fun _ => { out := [137, 80], err := some "exit status 1" })
        "\x7b\"html\":\"<p>hi</p>\",\"config\":\x7b\"format\":\"png\"\x7d\x7d"
        Ctx.fresh).ctx = { status := 500, headers := [], body := Body.text "exit status 1" } :=
  (handler_tool_failure exampleParser
    (fun _ => { out := [137, 80], err := some "exit status 1" })
    "\x7b\"html\":\"<p>hi</p>\",\"config\":\x7b\"format\":\"png\"\x7d\x7d" Ctx.fresh
    { Html := "<p>hi</p>", Config := { Config.zero with Format := "png" } }
    "exit status 1" rfl (by decide) (by decide) (fun _ _ => rfl)).1

/-! ## The command the handler runs -/

theorem handle_ran (BodyParser : String → Except String GenerateImage)
    (Run : Cmd → RunResult) (raw : String) (c : Ctx) (req : GenerateImage)
    (args : List String)
    (hd : BodyParser raw = .ok req) (hargs : generateArguments req.Config = .ok args) :
    (handleGenerateImageRequest BodyParser Run raw c).ran
      = [Cmd.mk "wkhtmltoimage" (args ++ ["-", "-"]) req.Html] := by
  cases hrun : (Run { Command "wkhtmltoimage" (args ++ ["-", "-"]) with
      Stdin := req.Html }).err with
  | some err =>
    rw [handle_of_run_error BodyParser Run raw c req args err hd hargs hrun]
    rfl
  | none =>
    rw [handle_of_run_ok BodyParser Run raw c req args hd hargs hrun]
    rfl

/-- C11: when the body decodes and the format is valid, the handler runs the external
tool exactly once, whether the tool then succeeds or fails: the program `wkhtmltoimage`
with the argument list of `generateArguments` followed by exactly the two tokens `-`,
`-` (the last two tokens are `-`, `-` and what precedes them is the builder's output
unchanged), and with the `Html` string of the request, unmodified, as standard input. -/
theorem handler_runs_tool_once (BodyParser : String → Except String GenerateImage)
    (Run : Cmd → RunResult) (raw : String) (c : Ctx) (req : GenerateImage)
    (hd : BodyParser raw = .ok req)
    (hf : req.Config.Format ∈ ["png", "jpg", "jpeg", "svg", "bmp"]) :
    ∃ args, generateArguments req.Config = .ok args ∧
      (handleGenerateImageRequest BodyParser Run raw c).ran
        = [Cmd.mk "wkhtmltoimage" (args ++ ["-", "-"]) req.Html] ∧
      ∀ cmd ∈ (handleGenerateImageRequest BodyParser Run raw c).ran,
        cmd.Stdin = req.Html ∧
        cmd.Args.take (cmd.Args.length - 2) = args ∧
        cmd.Args.drop (cmd.Args.length - 2) = ["-", "-"] := by
  have hargs := generateArguments_valid req.Config ((isValidFormat_iff _).mpr hf)
  refine ⟨_, hargs, handle_ran BodyParser Run raw c req _ hd hargs, ?_⟩
  intro cmd hcmd
  rw [handle_ran BodyParser Run raw c req _ hd hargs, List.mem_singleton] at hcmd
  subst hcmd
  refine ⟨rfl, ?_, ?_⟩
  · simp
  · simp

/-- A request with the empty `Html`, once with a tool that succeeds and once with a tool
that fails. -/
theorem handler_runs_tool_once_witness :
    (handleGenerateImageRequest
        (fun _ => .ok { Html := "", Config := { Config.zero with Format := "png" } })
        (fun _ => { out := [137, 80], err := none }) "" Ctx.fresh).ran
        = [Cmd.mk "wkhtmltoimage" ["-f", "png", "-", "-"] ""] ∧
      (handleGenerateImageRequest
        (fun _ => .ok { Html := "", Config := { Config.zero with Format := "png" } })
        (fun _ => { out := [], err := some "exit status 1" }) "" Ctx.fresh).ran
        = [Cmd.mk "wkhtmltoimage" ["-f", "png", "-", "-"] ""] := by
  obtain ⟨args1, hargs1, hran1, _⟩ :=
    handler_runs_tool_once
      (fun _ => .ok { Html := "", Config := { Config.zero with Format := "png" } })
      (fun _ => { out := [137, 80], err := none }) "" Ctx.fresh
      { Html := "", Config := { Config.zero with Format := "png" } } rfl (by decide)
  obtain ⟨args2, hargs2, hran2, _⟩ :=
    handler_runs_tool_once
      (fun _ => .ok { Html := "", Config := { Config.zero with Format := "png" } })
      (fun _ => { out := [], err := some "exit status 1" }) "" Ctx.fresh
      { Html := "", Config := { Config.zero with Format := "png" } } rfl (by decide)
  have h1 : args1 = ["-f", "png"] :=
    Except.ok.inj (hargs1.symm.trans
      (show generateArguments { Config.zero with Format := "png" }
        = .ok ["-f", "png"] by decide))
  have h2 : args2 = ["-f", "png"] :=
    Except.ok.inj (hargs2.symm.trans
      (show generateArguments { Config.zero with Format := "png" }
        = .ok ["-f", "png"] by decide))
  subst h1
  subst h2
  exact ⟨hran1, hran2⟩

/-! ## The Content-Type of a 200 response -/

theorem generateArguments_ok_format (config : Config) (args : List String)
    (h : generateArguments config = .ok args) :
    config.Format ∈ ["png", "jpg", "jpeg", "svg", "bmp"] := by
  cases hv : isValidFormat config.Format
  · rw [generateArguments_invalid config hv] at h
    exact absurd h (by simp)
  · exact (isValidFormat_iff _).mp hv

theorem header_after_set (c : Ctx) (key val : String) (b : List UInt8) :
    ((c.Set key val).Send b).header key = some val := by
  simp [Ctx.header, Ctx.Send, Ctx.Set, List.lookup]

/-- C14: every response of the handler with status 200 carries a Content-Type that is
one of the five strings `image/png`, `image/jpg`, `image/jpeg`, `image/svg`,
`image/bmp`, for any decoder, tool, body and incoming response; in particular it is
never `image/` with an empty format. -/
theorem handler_ok_content_type (BodyParser : String → Except String GenerateImage)
    (Run : Cmd → RunResult) (raw : String) (c : Ctx)
    (h200 : (handleGenerateImageRequest BodyParser Run raw c).ctx.status = 200) :
    (handleGenerateImageRequest BodyParser Run raw c).ctx.header "Content-Type"
        ∈ [some "image/png", some "image/jpg", some "image/jpeg", some "image/svg",
            some "image/bmp"] ∧
      (handleGenerateImageRequest BodyParser Run raw c).ctx.header "Content-Type"
        ≠ some "image/" := by
  cases hd : BodyParser raw with
  | error err =>
    simp only [handleGenerateImageRequest, hd] at h200
    exact absurd (show (400 : Nat) = 200 from h200) (by decide)
  | ok req =>
    cases hargs : generateArguments req.Config with
    | error err =>
      rw [handle_of_invalid BodyParser Run raw c req err hd hargs] at h200
      exact absurd (show (400 : Nat) = 200 from h200) (by decide)
    | ok args =>
      cases hrun : (Run { Command "wkhtmltoimage" (args ++ ["-", "-"]) with
          Stdin := req.Html }).err with
      | some err =>
        rw [handle_of_run_error BodyParser Run raw c req args err hd hargs hrun] at h200
        exact absurd (show (500 : Nat) = 200 from h200) (by decide)
      | none =>
        rw [handle_of_run_ok BodyParser Run raw c req args hd hargs hrun]
        simp only [header_after_set]
        have hf := generateArguments_ok_format req.Config args hargs
        simp only [List.mem_cons, List.mem_singleton, List.not_mem_nil, or_false] at hf
        rcases hf with e | e | e | e | e <;> rw [e] <;> decide

theorem handler_ok_content_type_witness :
    (handleGenerateImageRequest exampleParser
        (fun _ => { out := [66, 77], err := none })
        "\x7b\"html\":\"<p>hi</p>\",\"config\":\x7b\"format\":\"png\"\x7d\x7d"
        Ctx.fresh).ctx.status = 200 ∧
      (handleGenerateImageRequest exampleParser
        (fun _ => { out := [66, 77], err := none })
        "\x7b\"html\":\"<p>hi</p>\",\"config\":\x7b\"format\":\"png\"\x7d\x7d"
        Ctx.fresh).ctx.header "Content-Type"
        ∈ [some "image/png", some "image/jpg", some "image/jpeg", some "image/svg",
            some "image/bmp"] ∧
      (handleGenerateImageRequest exampleParser
        (fun _ => { out := [66, 77], err := none })
        "\x7b\"html\":\"<p>hi</p>\",\"config\":\x7b\"format\":\"png\"\x7d\x7d"
        Ctx.fresh).ctx.header "Content-Type" ≠ some "image/" :=
  ⟨by decide,
    handler_ok_content_type exampleParser (fun _ => { out := [66, 77], err := none })
      "\x7b\"html\":\"<p>hi</p>\",\"config\":\x7b\"format\":\"png\"\x7d\x7d" Ctx.fresh
      (by decide)⟩

/-! ## Verbatim encoding and cookie key -/

theorem adjacentAt_middle (pre post : List String) (f v : String) :
    AdjacentAt (pre ++ f :: v :: post) pre.length f v := by
  have h0 : AdjacentAt (f :: v :: post) 0 f v := by
    simp [AdjacentAt]
  simpa using adjacentAt_append_left h0 pre

theorem not_before_of_not_mem (pre post : List String) (f : String) (h : f ∉ pre) (j : Nat)
    (hj : j < pre.length) : (pre ++ post)[j]? ≠ some f := by
  rw [List.getElem?_append_left hj, List.getElem?_eq_getElem hj]
  intro e
  exact h (Option.some.inj e ▸ List.getElem_mem hj)

/-- The argument list around the encoding: what precedes the flag `--encoding` holds no
token `--encoding`, and the flag is followed by the encoding itself. -/
theorem specArguments_encoding (config : Config)
    (h : config.Format ∈ ["png", "jpg", "jpeg", "svg", "bmp"]) (he : config.Encoding ≠ "") :
    ∃ pre post, specArguments config = pre ++ "--encoding" :: config.Encoding :: post ∧
      "--encoding" ∉ pre := by
  refine ⟨["-f", config.Format]
      ++ (if config.Width ≠ 0 then ["--width", sprintfD config.Width] else [])
      ++ (if config.Height ≠ 0 then ["--height", sprintfD config.Height] else [])
      ++ (if config.DisableSmartWidth = true then ["--disable-smart-width"] else []),
    (if config.Quality ≠ 0 then ["--quality", sprintfD config.Quality] else [])
      ++ (if config.Transparent = true then ["--transparent"] else [])
      ++ (if config.Crop.X ≠ 0 then ["--crop-x", sprintfD config.Crop.X] else [])
      ++ (if config.Crop.Y ≠ 0 then ["--crop-y", sprintfD config.Crop.Y] else [])
      ++ (if config.Crop.H ≠ 0 then ["--crop-h", sprintfD config.Crop.H] else [])
      ++ (if config.Crop.W ≠ 0 then ["--crop-w", sprintfD config.Crop.W] else [])
      ++ config.Cookies.flatMap
          (fun cookie => ["--cookie", cookie.Key ++ "=" ++ QueryEscape cookie.Value]),
    ?_, ?_⟩
  · simp only [specArguments, if_pos he, List.append_assoc, List.cons_append,
      List.nil_append]
  · intro hmem
    simp only [List.mem_append, mem_ite_tokens, List.mem_cons, List.mem_singleton,
      List.not_mem_nil, or_false, or_assoc] at hmem
    rcases hmem with e | e | ⟨_, e | e⟩ | ⟨_, e | e⟩ | ⟨_, e⟩
    · exact absurd e (by decide)
    · rw [← e] at h
      exact absurd h (by decide)
    · exact absurd e (by decide)
    · exact sprintfD_ne_of_mem _ "--encoding" 'e' (by decide) (by decide) (by decide) e.symm
    · exact absurd e (by decide)
    · exact sprintfD_ne_of_mem _ "--encoding" 'e' (by decide) (by decide) (by decide) e.symm
    · exact absurd e (by decide)

/-- C15: only the cookie value is escaped.  For a valid format, a non-empty encoding
follows the first token `--encoding` of the argument list verbatim, whatever it is (a
string starting with `-`, a flag name), and every cookie yields the token `--cookie`
followed by its key verbatim, `=` and the escaped value.  Hence a configuration with
`Transparent` false can produce the token `--transparent`, and a cookie key with a
space produces a token with a space. -/
theorem encoding_and_key_verbatim (config : Config)
    (h : config.Format ∈ ["png", "jpg", "jpeg", "svg", "bmp"]) :
    ∃ args, generateArguments config = .ok args ∧
      (config.Encoding ≠ "" →
        ∃ i, AdjacentAt args i "--encoding" config.Encoding ∧
          ∀ j < i, args[j]? ≠ some "--encoding") ∧
      (∀ cookie ∈ config.Cookies,
        Adjacent args "--cookie" (cookie.Key ++ "=" ++ QueryEscape cookie.Value)) ∧
      (∃ config2 args2, config2.Format ∈ ["png", "jpg", "jpeg", "svg", "bmp"] ∧
        config2.Transparent = false ∧ generateArguments config2 = .ok args2 ∧
        "--transparent" ∈ args2) ∧
      (∃ config3 args3 token, config3.Format ∈ ["png", "jpg", "jpeg", "svg", "bmp"] ∧
        generateArguments config3 = .ok args3 ∧ Adjacent args3 "--cookie" token ∧
        ' ' ∈ token.data) := by
  refine ⟨specArguments config, generateArguments_valid config ((isValidFormat_iff _).mpr h),
    ?_, ?_, ?_, ?_⟩
  · intro he
    obtain ⟨pre, post, hsplit, hpre⟩ := specArguments_encoding config h he
    rw [hsplit]
    exact ⟨pre.length, adjacentAt_middle pre post _ _,
      fun j hj => not_before_of_not_mem pre _ _ hpre j hj⟩
  · intro cookie hmem
    rw [specArguments_cookies config]
    exact adjacent_append_left (adjacent_cookie _ cookie hmem) _
  · exact ⟨{ Config.zero with Format := "png", Encoding := "--transparent" },
      ["-f", "png", "--encoding", "--transparent"], by decide, rfl, by decide, by decide⟩
  · exact ⟨{ Config.zero with Format := "png", Cookies := [⟨"a b", "v"⟩] },
      ["-f", "png", "--cookie", "a b=v"], "a b=v", by decide, by decide, ⟨2, rfl, rfl⟩,
      by decide⟩

/-- An encoding that spells a flag and a cookie key with a space. -/
theorem encoding_and_key_verbatim_witness :
    generateArguments
        { Config.zero with
          Format := "png", Encoding := "--transparent", Cookies := [⟨"a b", "c d"⟩] }
        = .ok ["-f", "png", "--encoding", "--transparent", "--cookie", "a b=c+d"] ∧
      (∃ i, AdjacentAt ["-f", "png", "--encoding", "--transparent", "--cookie", "a b=c+d"] i
          "--encoding" "--transparent" ∧
        ∀ j < i, ["-f", "png", "--encoding", "--transparent", "--cookie", "a b=c+d"][j]?
          ≠ some "--encoding") ∧
      Adjacent ["-f", "png", "--encoding", "--transparent", "--cookie", "a b=c+d"]
        "--cookie" "a b=c+d" := by
  obtain ⟨args, hargs, henc, hcookie, _, _⟩ :=
    encoding_and_key_verbatim
      { Config.zero with
        Format := "png", Encoding := "--transparent", Cookies := [⟨"a b", "c d"⟩] }
      (by decide)
  have hval : args = ["-f", "png", "--encoding", "--transparent", "--cookie", "a b=c+d"] :=
    Except.ok.inj (hargs.symm.trans (by decide))
  subst hval
  exact ⟨hargs, henc (by decide), hcookie ⟨"a b", "c d"⟩ (List.mem_singleton.mpr rfl)⟩

/-! ## Determinism -/

theorem header_after_error (c : Ctx) (code : Nat) (err key : String) :
    ((c.Status code).SendString err).header key = c.header key :=
  rfl

theorem generateArguments_total (config : Config) :
    generateArguments config
      = if config.Format ∈ ["png", "jpg", "jpeg", "svg", "bmp"] then
          .ok (specArguments config)
        else .error ("invalid format: " ++ config.Format) := by
  split
  · rename_i h
    exact generateArguments_valid config ((isValidFormat_iff _).mpr h)
  · rename_i h
    apply generateArguments_invalid
    cases hv : isValidFormat config.Format
    · rfl
    · exact absurd ((isValidFormat_iff _).mp hv) h

/-- C13: `generateArguments` is a function of its `Config` alone: equal configurations
give equal results, and the result, list or error, is fixed by the fields and the five
formats.  With a tool that is a function of the argument list and the standard input,
two runs of the handler on the same decoded request give the same status, the same
Content-Type and the same body, even when the raw bodies and the decoders differ and
the incoming responses agree only on status and Content-Type. -/
theorem handler_deterministic (tool : List String → String → RunResult)
    (BodyParser1 BodyParser2 : String → Except String GenerateImage)
    (raw1 raw2 : String) (c1 c2 : Ctx) (req : GenerateImage)
    (hd1 : BodyParser1 raw1 = .ok req) (hd2 : BodyParser2 raw2 = .ok req)
    (hstatus : c1.status = c2.status)
    (htype : c1.header "Content-Type" = c2.header "Content-Type") :
    (∀ config1 config2 : Config, config1 = config2 →
        generateArguments config1 = generateArguments config2) ∧
      (∀ config : Config, generateArguments config
        = if config.Format ∈ ["png", "jpg", "jpeg", "svg", "bmp"] then
            .ok (specArguments config)
          else .error ("invalid format: " ++ config.Format)) ∧
      (handleGenerateImageRequest BodyParser1 (runTool tool) raw1 c1).ctx.status
        = (handleGenerateImageRequest BodyParser2 (runTool tool) raw2 c2).ctx.status ∧
      (handleGenerateImageRequest BodyParser1 (runTool tool) raw1 c1).ctx.header
          "Content-Type"
        = (handleGenerateImageRequest BodyParser2 (runTool tool) raw2 c2).ctx.header
          "Content-Type" ∧
      (handleGenerateImageRequest BodyParser1 (runTool tool) raw1 c1).ctx.body
        = (handleGenerateImageRequest BodyParser2 (runTool tool) raw2 c2).ctx.body := by
  refine ⟨fun _ _ e => congrArg generateArguments e, generateArguments_total, ?_⟩
  cases hargs : generateArguments req.Config with
  | error err =>
    rw [handle_of_invalid BodyParser1 _ raw1 c1 req err hd1 hargs,
      handle_of_invalid BodyParser2 _ raw2 c2 req err hd2 hargs]
    exact ⟨rfl, by simp only [header_after_error, htype], rfl⟩
  | ok args =>
    cases hrun : (runTool tool { Command "wkhtmltoimage" (args ++ ["-", "-"]) with
        Stdin := req.Html }).err with
    | some err =>
      rw [handle_of_run_error BodyParser1 _ raw1 c1 req args err hd1 hargs hrun,
        handle_of_run_error BodyParser2 _ raw2 c2 req args err hd2 hargs hrun]
      exact ⟨rfl, by simp only [header_after_error, htype], rfl⟩
    | none =>
      rw [handle_of_run_ok BodyParser1 _ raw1 c1 req args hd1 hargs hrun,
        handle_of_run_ok BodyParser2 _ raw2 c2 req args hd2 hargs hrun]
      exact ⟨hstatus, by simp only [header_after_set], rfl⟩

/-- Two runs on the same decoded request: different raw bodies, different decoders, and
incoming responses that differ in another header. -/
theorem handler_deterministic_witness :
    (handleGenerateImageRequest exampleParser
        (runTool (fun args stdin => RunResult.mk (bytesOf stdin ++ [UInt8.ofNat args.length]) none))
        "\x7b\"html\":\"<p>hi</p>\",\"config\":\x7b\"format\":\"png\"\x7d\x7d"
        Ctx.fresh).ctx.body
      = (handleGenerateImageRequest
        (fun _ => .ok { Html := "<p>hi</p>", Config := { Config.zero with Format := "png" } })
        (runTool (fun args stdin => RunResult.mk (bytesOf stdin ++ [UInt8.ofNat args.length]) none))
        "html=%3Cp%3Ehi%3C%2Fp%3E&config.format=png"
        { status := 200, headers := [("Vary", "Origin")], body := Body.empty }).ctx.body :=
  (handler_deterministic
    (fun args stdin => RunResult.mk (bytesOf stdin ++ [UInt8.ofNat args.length]) none)
    exampleParser
    (fun _ => .ok { Html := "<p>hi</p>", Config := { Config.zero with Format := "png" } })
    "\x7b\"html\":\"<p>hi</p>\",\"config\":\x7b\"format\":\"png\"\x7d\x7d"
    "html=%3Cp%3Ehi%3C%2Fp%3E&config.format=png"
    Ctx.fresh { status := 200, headers := [("Vary", "Origin")], body := Body.empty }
    { Html := "<p>hi</p>", Config := { Config.zero with Format := "png" } }
    (by decide) rfl rfl rfl).2.2.2.2

end HtmlToImage
